import Mathlib

/-!
# Verification of the store-credit reservation/settlement service

Shallow embedding of the Express + Supabase service in `src/index.js`
(endpoints `POST /api/apply-credits`, `POST /api/cancel-credits`,
`POST /api/order-webhook`, `POST /api/cleanup-pending`) and of the
standalone serverless cancel handler `src/api/cancel-credits.js`.

Modelling decisions:
* Monetary amounts (`DECIMAL(10,2)` columns, JS numbers in the handlers)
  are embedded as `ℤ`: a `DECIMAL(10,2)` value is exactly an integer
  number of cents, the handlers only compare, add and subtract amounts
  (all operations preserved by the cents scaling), and every concrete
  amount in the specification (50.00, 25.00, 10.00, …) is a whole number
  of currency units, written here as that integer.
* Timestamps are embedded as `ℤ`, measured in hours, so that the
  24-hour cutoff of `/api/cleanup-pending` is `now - 24`.
* Supabase `.single()` yields a row only when the filter matches exactly
  one row (`single?` below); otherwise the JS code sees `data = null`.
* `.update(...).eq(col, v)` updates every row whose column equals `v`,
  embedded as `List.map` with a conditional rewrite.
* The discount code `CREDIT-${Date.now()}-${random}` is determinised to
  `"CREDIT-" ++ toString seed` with a per-store counter `nextCodeSeed`;
  only its uniqueness and its `CREDIT-` prefix matter to the handlers.
* The two Shopify `fetch` calls of apply-credits and the reservation
  insert can fail; the `IssuerEnv` record injects those outcomes.
  Shopify-side price rules live in the `priceRules` field of the store
  state; the returned `price_rule.id` is determinised by `nextPrId`.
-/

/-- Lifecycle states of a `credit_transactions` row
(schema: `CHECK (status IN ('pending','completed','cancelled'))`). -/
inductive TxStatus where
  | pending
  | completed
  | cancelled
deriving DecidableEq

/-- A row of the `profiles` table: user id and available credits. -/
structure Profile where
  id : String
  credits : ℤ
deriving DecidableEq

/-- A row of the `credit_transactions` table (the reservation record). -/
structure CreditTransaction where
  id : Nat
  user_id : String
  amount : ℤ
  status : TxStatus
  discount_code : String
  price_rule_id : Nat
  created_at : ℤ
  completed_at : Option ℤ
  cancelled_at : Option ℤ
  order_id : Option Nat
  order_number : Option Nat
deriving DecidableEq

/-- The whole mutable state the handlers touch: the two Supabase tables,
the set of Shopify price rules (external discount instruments), and the
determinised id/code counters. -/
structure Store where
  profiles : List Profile
  transactions : List CreditTransaction
  priceRules : List Nat
  nextPrId : Nat
  nextTxId : Nat
  nextCodeSeed : Nat
deriving DecidableEq

/-- Supabase `.single()`: the row, provided the filter matched exactly one. -/
def single? (p : α → Bool) (l : List α) : Option α :=
  match l.filter p with
  | [a] => some a
  | _ => none

/-- `String.startsWith`, routed through structural list recursion so the
kernel can evaluate it (`dc.code.startsWith('CREDIT-')` in the webhook). -/
def strStartsWith (s pre : String) : Bool :=
  pre.data.isPrefixOf s.data

/-- The ledger read `GetBalance(accountId)`: the `credits` column of the
unique matching `profiles` row (0 when the account does not exist). -/
def getBalance (uid : String) (st : Store) : ℤ :=
  match single? (fun p => decide (p.id = uid)) st.profiles with
  | some p => p.credits
  | none => 0

/-- Status of the unique reservation carrying a discount code. -/
def statusOf (code : String) (st : Store) : Option TxStatus :=
  match single? (fun t => decide (t.discount_code = code)) st.transactions with
  | some t => some t.status
  | none => none

/-- Outcomes of the two Shopify `fetch` calls and of the Supabase insert
inside `POST /api/apply-credits`. -/
structure IssuerEnv where
  createPriceRuleOk : Bool
  createCodeOk : Bool
  insertTxOk : Bool
deriving DecidableEq

/-- The possible HTTP responses of the four handlers, one constructor per
distinct response body. -/
inductive ApiResult where
  | missingFields
  | userNotFound
  | insufficientCredits (available requested : ℤ)
  | applied (discountCode : String) (discountAmount newBalance : ℤ) (priceRuleId : Nat)
  | applyFailed
  | txNotFound
  | cancelFailed
  | cancelledOk (restoredAmount newBalance : ℤ)
  | unauthorizedReq
  | noCreditsUsed
  | alreadyProcessed
  | finalized (orderId : Nat)
  | sweepDone (count : Nat)
deriving DecidableEq

/-- `POST /api/apply-credits` (src/index.js lines 44-165): validate input,
check the balance (read-only), create a Shopify price rule and discount
code, insert a `pending` transaction (its error object is never checked),
and return the code with the balance unchanged. -/
def applyCredits (env : IssuerEnv) (userId : String) (creditAmount : ℤ)
    (cartItemsPresent : Bool) (now : ℤ) (st : Store) : ApiResult × Store :=
  -- `if (!creditAmount || !userId || !cartItems)` — JS falsiness:
  -- 0 and "" are falsy, a negative amount is truthy.
  if creditAmount = 0 ∨ userId = "" ∨ cartItemsPresent = false then
    (.missingFields, st)
  else
    match single? (fun p => decide (p.id = userId)) st.profiles with
    | none => (.userNotFound, st)
    | some profile =>
      if profile.credits < creditAmount then
        (.insufficientCredits profile.credits creditAmount, st)
      else
        let discountCode := "CREDIT-" ++ toString st.nextCodeSeed
        let st0 := { st with nextCodeSeed := st.nextCodeSeed + 1 }
        if env.createPriceRuleOk = false then
          -- `throw new Error('Failed to create discount in Shopify')` → 500
          (.applyFailed, st0)
        else
          let prId := st0.nextPrId
          let st1 := { st0 with priceRules := prId :: st0.priceRules,
                                nextPrId := st0.nextPrId + 1 }
          if env.createCodeOk = false then
            -- `throw new Error('Failed to create discount code')` → 500;
            -- the just-created price rule is NOT deleted.
            (.applyFailed, st1)
          else
            -- Step 5: insert the pending row; the returned error is ignored,
            -- so on insert failure the handler still reports success.
            let st2 :=
              if env.insertTxOk then
                { st1 with
                  transactions := st1.transactions ++
                    [{ id := st1.nextTxId, user_id := userId,
                       amount := creditAmount, status := .pending,
                       discount_code := discountCode, price_rule_id := prId,
                       created_at := now, completed_at := none,
                       cancelled_at := none, order_id := none,
                       order_number := none }],
                  nextTxId := st1.nextTxId + 1 }
              else st1
            (.applied discountCode creditAmount profile.credits prId, st2)

/-- `POST /api/order-webhook` (src/index.js lines 241-336): verify the
HMAC, find the first `CREDIT-` discount code of the order, look up the
`pending` transaction for it, debit the profile unconditionally
(`profile.credits - transaction.amount`, no negativity check), and mark
the transaction `completed`. -/
def orderWebhook (hmacValid : Bool) (discountCodes : List String)
    (orderId orderNumber : Nat) (now : ℤ) (st : Store) : ApiResult × Store :=
  if hmacValid = false then
    (.unauthorizedReq, st)
  else
    match discountCodes.find? (fun c => strStartsWith c "CREDIT-") with
    | none => (.noCreditsUsed, st)
    | some code =>
      match single? (fun t =>
          decide (t.discount_code = code ∧ t.status = .pending)) st.transactions with
      | none => (.alreadyProcessed, st)
      | some txn =>
        let st1 : Store :=
          match single? (fun p => decide (p.id = txn.user_id)) st.profiles with
          | some profile =>
            let newBalance := profile.credits - txn.amount
            { st with profiles := st.profiles.map (fun (p : Profile) =>
                if p.id = txn.user_id then { p with credits := newBalance } else p) }
          | none => st
        let st2 := { st1 with transactions := st1.transactions.map (fun t =>
            if t.id = txn.id then
              { t with status := .completed, completed_at := some now,
                       order_id := some orderId, order_number := some orderNumber }
            else t) }
        (.finalized orderId, st2)

/-- `POST /api/cancel-credits` (src/index.js lines 170-236): find the
`pending` transaction for (user, code), mark it `cancelled`, best-effort
delete the Shopify price rule, then build the success JSON — which reads
the undeclared variable `restoredBalance`, so a `ReferenceError` is
thrown and the outer catch answers 500 `Failed to cancel credits`,
after the database updates have already been applied. -/
def cancelCredits (userId discountCode : String) (priceRuleId : Option Nat)
    (now : ℤ) (st : Store) : ApiResult × Store :=
  if userId = "" ∨ discountCode = "" then
    (.missingFields, st)
  else
    match single? (fun t =>
        decide (t.user_id = userId ∧ t.discount_code = discountCode ∧
                t.status = .pending)) st.transactions with
    | none => (.txNotFound, st)
    | some txn =>
      let st1 := { st with transactions := st.transactions.map (fun t =>
          if t.id = txn.id then
            { t with status := .cancelled, cancelled_at := some now }
          else t) }
      let st2 :=
        match priceRuleId with
        | some pr => { st1 with priceRules := st1.priceRules.filter (fun x => x ≠ pr) }
        | none => st1
      (.cancelFailed, st2)

/-- `src/api/cancel-credits.js` (the standalone serverless handler): find
the `pending` transaction, ADD its amount back to the profile's credits
(`restoredBalance = profile.credits + transaction.amount`), mark it
`cancelled`, best-effort delete the price rule, and answer success. -/
def cancelCreditsStandalone (userId discountCode : String)
    (priceRuleId : Option Nat) (now : ℤ) (st : Store) : ApiResult × Store :=
  if userId = "" ∨ discountCode = "" then
    (.missingFields, st)
  else
    match single? (fun t =>
        decide (t.user_id = userId ∧ t.discount_code = discountCode ∧
                t.status = .pending)) st.transactions with
    | none => (.txNotFound, st)
    | some txn =>
      match single? (fun p => decide (p.id = userId)) st.profiles with
      | none => (.cancelFailed, st)
      | some profile =>
        let restoredBalance := profile.credits + txn.amount
        let st1 : Store := { st with profiles := st.profiles.map (fun (p : Profile) =>
            if p.id = userId then { p with credits := restoredBalance } else p) }
        let st2 := { st1 with transactions := st1.transactions.map (fun (t : CreditTransaction) =>
            if t.id = txn.id then
              { t with status := .cancelled, cancelled_at := some now }
            else t) }
        let st3 :=
          match priceRuleId with
          | some pr => { st2 with priceRules := st2.priceRules.filter (fun x => x ≠ pr) }
          | none => st2
        (.cancelledOk txn.amount restoredBalance, st3)

/-- The sweep predicate of `/api/cleanup-pending`: `status = 'pending'`
and `created_at < now - 24h`. -/
def isExpiredPending (now : ℤ) (t : CreditTransaction) : Bool :=
  decide (t.status = .pending ∧ t.created_at < now - 24)

/-- `POST /api/cleanup-pending` (src/index.js lines 341-388): select all
pending transactions older than 24 hours, mark that same set `cancelled`,
and report how many rows the select returned. -/
def cleanupPending (now : ℤ) (st : Store) : ApiResult × Store :=
  let old := st.transactions.filter (isExpiredPending now)
  if 0 < old.length then
    let st1 := { st with transactions := st.transactions.map (fun t =>
        if isExpiredPending now t then
          { t with status := .cancelled, cancelled_at := some now }
        else t) }
    (.sweepDone old.length, st1)
  else
    (.sweepDone 0, st)

/-- One client-visible operation against the main server, for reasoning
about finite operation sequences. -/
inductive Op where
  | reserve (env : IssuerEnv) (userId : String) (amount : ℤ) (cartItemsPresent : Bool)
  | settle (hmacValid : Bool) (discountCodes : List String) (orderId orderNumber : Nat)
  | cancel (userId discountCode : String) (priceRuleId : Option Nat)
  | sweep
deriving DecidableEq

/-- Whether an operation is a settlement (`/api/order-webhook`). -/
def Op.isSettle : Op → Bool
  | .settle _ _ _ _ => true
  | _ => false

/-- State transition of a single operation (discarding the HTTP response). -/
def step (now : ℤ) (op : Op) (st : Store) : Store :=
  match op with
  | .reserve env uid amount cart => (applyCredits env uid amount cart now st).2
  | .settle h codes oid onum => (orderWebhook h codes oid onum now st).2
  | .cancel uid code pr => (cancelCredits uid code pr now st).2
  | .sweep => (cleanupPending now st).2

/-- Running a finite sequence of operations. -/
def run (now : ℤ) (ops : List Op) (st : Store) : Store :=
  ops.foldl (fun s o => step now o s) st

/-- Scenario store for the spec's concrete example: one account `"u"`
with balance 50.00 and nothing else. -/
def c1Store : Store :=
  { profiles := [{ id := "u", credits := 50 }], transactions := [],
    priceRules := [], nextPrId := 1, nextTxId := 1, nextCodeSeed := 0 }

/-- State after `reserve(25.00)` in the C1 scenario. -/
def c1AfterReserve : ApiResult × Store :=
  applyCredits ⟨true, true, true⟩ "u" 25 true 0 c1Store

/-- State after the settlement webhook referencing the returned code. -/
def c1AfterSettle : ApiResult × Store :=
  orderWebhook true ["CREDIT-0"] 101 1001 1 c1AfterReserve.2

/-- State after a duplicate delivery of the same settlement event. -/
def c1AfterSettleDup : ApiResult × Store :=
  orderWebhook true ["CREDIT-0"] 101 1001 2 c1AfterSettle.2

/-- The operation sequence refuting the non-negative-balance invariant:
two soft-checked reservations of 30.00 against a balance of 50.00, then
both settlement webhooks arrive. -/
def c3Ops : List Op :=
  [ .reserve ⟨true, true, true⟩ "u" 30 true,
    .reserve ⟨true, true, true⟩ "u" 30 true,
    .settle true ["CREDIT-0"] 201 2001,
    .settle true ["CREDIT-1"] 202 2002 ]

/-- Store refuting C4: balance 10.00 and a pending reservation of 25.00. -/
def c4Store : Store :=
  { profiles := [{ id := "u", credits := 10 }],
    transactions := [⟨1, "u", 25, .pending, "CREDIT-0", 1, 0,
      none, none, none, none⟩],
    priceRules := [1], nextPrId := 2, nextTxId := 2, nextCodeSeed := 1 }

/-- Store shared by the cancellation claims: balance 0.00 and one
pending reservation of 10.00 for user `"u"`. -/
def zeroBalanceStore : Store :=
  { profiles := [{ id := "u", credits := 0 }],
    transactions := [⟨1, "u", 10, .pending, "CREDIT-0", 1, 0,
      none, none, none, none⟩],
    priceRules := [1], nextPrId := 2, nextTxId := 2, nextCodeSeed := 1 }

/-- The per-row effect of the sweep: cancel an expired pending row, leave
every other row untouched. -/
def cancelExpired (now : ℤ) (t : CreditTransaction) : CreditTransaction :=
  if isExpiredPending now t then
    { t with status := .cancelled, cancelled_at := some now }
  else t

/-- Store with one pending reservation created 25 hours before the sweep
and one created 1 hour before it (sweep time 75). -/
def sweepStore : Store :=
  { profiles := [{ id := "u", credits := 50 }],
    transactions := [⟨1, "u", 10, .pending, "CREDIT-0", 1, 50,
        none, none, none, none⟩,
      ⟨2, "u", 15, .pending, "CREDIT-1", 2, 74, none, none, none, none⟩],
    priceRules := [1, 2], nextPrId := 3, nextTxId := 3, nextCodeSeed := 2 }

/-- Store holding one completed (terminal) reservation. -/
def completedStore : Store :=
  { profiles := [{ id := "u", credits := 25 }],
    transactions := [⟨1, "u", 25, .completed, "CREDIT-0", 1, 0,
      some 1, none, some 101, some 1001⟩],
    priceRules := [], nextPrId := 2, nextTxId := 2, nextCodeSeed := 1 }

/-! ## Theorems -/

/-- A row produced by `.single()` is in the table and satisfies the filter. -/
theorem mem_of_single? {α : Type} (p : α → Bool) (l : List α) (a : α)
    (h : single? p l = some a) : a ∈ l ∧ p a = true := by
  unfold single? at h
  split at h
  next x heq =>
    injection h with h'
    subst h'
    have hx : x ∈ l.filter p := by rw [heq]; exact List.mem_singleton_self x
    exact ⟨List.mem_of_mem_filter hx, List.of_mem_filter hx⟩
  next => exact absurd h (by simp)

/-- If every profile row has non-negative credits, so does any balance read. -/
theorem getBalance_nonneg_of (st : Store) (uid : String)
    (h : ∀ p ∈ st.profiles, 0 ≤ p.credits) : 0 ≤ getBalance uid st := by
  unfold getBalance
  split
  next p hp => exact h p (mem_of_single? _ _ _ hp).1
  next => exact le_refl 0

/-- `/api/apply-credits` never touches the `profiles` table. -/
theorem applyCredits_profiles (env : IssuerEnv) (uid : String) (a : ℤ)
    (cart : Bool) (now : ℤ) (st : Store) :
    ((applyCredits env uid a cart now st).2).profiles = st.profiles := by
  unfold applyCredits
  repeat' split <;> try rfl

/-- `/api/cancel-credits` (main server) never touches the `profiles` table. -/
theorem cancelCredits_profiles (uid code : String) (pr : Option Nat)
    (now : ℤ) (st : Store) :
    ((cancelCredits uid code pr now st).2).profiles = st.profiles := by
  unfold cancelCredits
  repeat' split <;> try rfl

/-- `/api/cleanup-pending` never touches the `profiles` table. -/
theorem cleanupPending_profiles (now : ℤ) (st : Store) :
    ((cleanupPending now st).2).profiles = st.profiles := by
  unfold cleanupPending
  dsimp only
  split <;> rfl

/-- Any non-settlement operation leaves the `profiles` table unchanged. -/
theorem step_profiles_of_not_settle (now : ℤ) (op : Op) (st : Store)
    (h : op.isSettle = false) : (step now op st).profiles = st.profiles := by
  cases op with
  | reserve env uid a cart => exact applyCredits_profiles env uid a cart now st
  | settle hv codes oid onum => exact absurd h (by simp [Op.isSettle])
  | cancel uid code pr => exact cancelCredits_profiles uid code pr now st
  | sweep => exact cleanupPending_profiles now st

/-- A settlement-free run leaves the `profiles` table unchanged. -/
theorem run_profiles_of_no_settle (now : ℤ) (ops : List Op) (st : Store)
    (h : ∀ op ∈ ops, op.isSettle = false) :
    (run now ops st).profiles = st.profiles := by
  induction ops generalizing st with
  | nil => rfl
  | cons o os ih =>
    have ho := h o (List.mem_cons_self o os)
    have hrest : ∀ op ∈ os, op.isSettle = false :=
      fun op hop => h op (List.mem_cons_of_mem _ hop)
    show (run now os (step now o st)).profiles = st.profiles
    rw [ih (step now o st) hrest, step_profiles_of_not_settle now o st ho]

/-- C1: with balance 50.00, reserve(25.00) succeeds and returns a discount
code while the balance still reads 50.00; the settlement event for that
code makes the balance 25.00 and the reservation completed; a duplicate
settlement event is a no-op and the balance remains 25.00. -/
theorem c1_reserve_settle_duplicate_scenario :
    c1AfterReserve.1 = .applied "CREDIT-0" 25 50 1 ∧
    getBalance "u" c1AfterReserve.2 = 50 ∧
    statusOf "CREDIT-0" c1AfterReserve.2 = some .pending ∧
    c1AfterSettle.1 = .finalized 101 ∧
    getBalance "u" c1AfterSettle.2 = 25 ∧
    statusOf "CREDIT-0" c1AfterSettle.2 = some .completed ∧
    c1AfterSettleDup = (.alreadyProcessed, c1AfterSettle.2) ∧
    getBalance "u" c1AfterSettleDup.2 = 25 := by
  decide

/-- C3 counterexample: starting from the non-negative balance 50.00, the
sequence reserve(30), reserve(30), settle, settle leaves the balance at
-10.00 — the webhook debits unconditionally, so `GetBalance` can go
negative. -/
theorem c3_counterexample_balance_goes_negative :
    getBalance "u" c1Store = 50 ∧
    getBalance "u" (run 0 c3Ops c1Store) = -10 := by
  decide

/-- C3 amended: after any finite sequence of reserve, cancel and sweep
operations (no settlement) starting from non-negative balances, every
balance read via `GetBalance` is still non-negative; reserve, cancel and
sweep never change the `profiles` table at all.  Settlement is excluded:
its unconditional debit can drive the balance negative. -/
theorem c3_amended_no_settle_balance_nonneg (now : ℤ) (ops : List Op)
    (st : Store) (uid : String)
    (hops : ∀ op ∈ ops, op.isSettle = false)
    (hnn : ∀ p ∈ st.profiles, 0 ≤ p.credits) :
    0 ≤ getBalance uid (run now ops st) := by
  apply getBalance_nonneg_of
  rw [run_profiles_of_no_settle now ops st hops]
  exact hnn

/-- Concrete instantiation of the amended C3 theorem. -/
theorem c3_amended_no_settle_balance_nonneg_witness :
    0 ≤ getBalance "u"
      (run 0 [.reserve ⟨true, true, true⟩ "u" 30 true, .sweep,
              .cancel "u" "CREDIT-0" none] c1Store) :=
  c3_amended_no_settle_balance_nonneg 0 _ c1Store "u" (by decide) (by decide)

/-- C5: for an existing account and any requested amount strictly above
its current (non-negative) balance, apply-credits answers the
insufficient-credits error and the state — profiles, reservations and
Shopify price rules alike — is exactly unchanged: no discount instrument
and no reservation row are created. -/
theorem c5_insufficient_balance_no_side_effects (env : IssuerEnv)
    (uid : String) (amount now : ℤ) (st : Store) (p : Profile)
    (hu : uid ≠ "")
    (hp : single? (fun q => decide (q.id = uid)) st.profiles = some p)
    (hnn : 0 ≤ p.credits) (hgt : p.credits < amount) :
    applyCredits env uid amount true now st =
      (.insufficientCredits p.credits amount, st) := by
  have hval : ¬(amount = 0 ∨ uid = "" ∨ (true : Bool) = false) := by
    push_neg
    exact ⟨by omega, hu, by simp⟩
  unfold applyCredits
  rw [if_neg hval, hp]
  dsimp only
  rw [if_pos hgt]

/-- Concrete instantiation of C5: requesting 60.00 against balance 50.00. -/
theorem c5_insufficient_balance_no_side_effects_witness :
    applyCredits ⟨true, true, true⟩ "u" 60 true 0 c1Store =
      (.insufficientCredits 50 60, c1Store) :=
  c5_insufficient_balance_no_side_effects ⟨true, true, true⟩ "u" 60 0 c1Store
    { id := "u", credits := 50 } (by decide) (by decide) (by decide) (by decide)

/-- C10: a strictly negative creditAmount is truthy in JS, so the input
validation passes; the balance check `credits < creditAmount` also passes
for any non-negative balance; with both Shopify calls and the insert
succeeding, a pending reservation with the negative amount is persisted
— the spec's precondition amount > 0 is nowhere enforced. -/
theorem c10_negative_amount_creates_pending_reservation
    (uid : String) (amount now : ℤ) (st : Store) (p : Profile)
    (hu : uid ≠ "")
    (hp : single? (fun q => decide (q.id = uid)) st.profiles = some p)
    (hnn : 0 ≤ p.credits) (hneg : amount < 0) :
    applyCredits ⟨true, true, true⟩ uid amount true now st =
      (.applied ("CREDIT-" ++ toString st.nextCodeSeed) amount p.credits st.nextPrId,
       { st with
         transactions := st.transactions ++
           [{ id := st.nextTxId, user_id := uid, amount := amount,
              status := .pending,
              discount_code := "CREDIT-" ++ toString st.nextCodeSeed,
              price_rule_id := st.nextPrId, created_at := now,
              completed_at := none, cancelled_at := none,
              order_id := none, order_number := none }],
         priceRules := st.nextPrId :: st.priceRules,
         nextPrId := st.nextPrId + 1, nextTxId := st.nextTxId + 1,
         nextCodeSeed := st.nextCodeSeed + 1 }) := by
  have hval : ¬(amount = 0 ∨ uid = "" ∨ (true : Bool) = false) := by
    push_neg
    exact ⟨by omega, hu, by simp⟩
  have hlt : ¬(p.credits < amount) := by omega
  unfold applyCredits
  rw [if_neg hval, hp]
  dsimp only
  rw [if_neg hlt]
  rfl

/-- Concrete instantiation of C10: reserving -5.00 against balance 50.00
succeeds and records a pending reservation of -5.00. -/
theorem c10_negative_amount_creates_pending_reservation_witness :
    applyCredits ⟨true, true, true⟩ "u" (-5) true 0 c1Store =
      (.applied "CREDIT-0" (-5) 50 1,
       { c1Store with
           transactions := [⟨1, "u", -5, .pending, "CREDIT-0", 1, 0,
             none, none, none, none⟩],
           priceRules := [1], nextPrId := 2, nextTxId := 2,
           nextCodeSeed := 1 }) := by
  have h := c10_negative_amount_creates_pending_reservation "u" (-5) 0 c1Store
    { id := "u", credits := 50 } (by decide) (by decide) (by decide) (by decide)
  exact h.trans (by decide)

/-- Filtering commutes with a row rewrite that cannot change the filter's
verdict (the Supabase update touches columns the filter does not read). -/
theorem filter_map_comm {α : Type} (g : α → α) (p : α → Bool)
    (h : ∀ a, p (g a) = p a) (l : List α) :
    (l.map g).filter p = (l.filter p).map g := by
  induction l with
  | nil => rfl
  | cons x xs ih =>
    simp only [List.map_cons, List.filter_cons, h x]
    cases hx : p x with
    | false => simpa using ih
    | true => simp [ih]

/-- `.single()` commutes with a row rewrite that cannot change the
filter's verdict. -/
theorem single?_map_comm {α : Type} (g : α → α) (p : α → Bool)
    (h : ∀ a, p (g a) = p a) (l : List α) :
    single? p (l.map g) = (single? p l).map g := by
  unfold single?
  rw [filter_map_comm g p h]
  cases hf : l.filter p with
  | nil => rfl
  | cons x xs => cases xs <;> rfl

/-- C4 counterexample: settling a pending reservation of 25.00 against a
balance of 10.00 does not fail — no LedgerInconsistency outcome exists in
the webhook — and the negative balance -15.00 is written while the
reservation is marked completed. -/
theorem c4_counterexample_negative_balance_written :
    (orderWebhook true ["CREDIT-0"] 301 3001 1 c4Store).1 = .finalized 301 ∧
    getBalance "u" (orderWebhook true ["CREDIT-0"] 301 3001 1 c4Store).2 = -15 ∧
    statusOf "CREDIT-0" (orderWebhook true ["CREDIT-0"] 301 3001 1 c4Store).2 =
      some .completed := by
  decide

/-- C4 amended: the settlement webhook performs no balance check at all —
whenever it finds the pending reservation and the owning profile, it
reports success and writes exactly `credits - amount` to the profile,
negative or not. -/
theorem c4_amended_settle_debits_unconditionally (code : String)
    (oid onum : Nat) (now : ℤ) (st : Store)
    (txn : CreditTransaction) (p : Profile)
    (hcode : strStartsWith code "CREDIT-" = true)
    (htx : single? (fun t => decide (t.discount_code = code ∧ t.status = .pending))
        st.transactions = some txn)
    (hp : single? (fun q => decide (q.id = txn.user_id)) st.profiles = some p) :
    (orderWebhook true [code] oid onum now st).1 = .finalized oid ∧
    getBalance txn.user_id (orderWebhook true [code] oid onum now st).2 =
      p.credits - txn.amount := by
  have hfind : List.find? (fun c => strStartsWith c "CREDIT-") [code] = some code :=
    List.find?_cons_of_pos [] hcode
  have hpid : p.id = txn.user_id :=
    of_decide_eq_true (mem_of_single? _ _ _ hp).2
  unfold orderWebhook
  rw [if_neg (by simp), hfind]
  dsimp only
  rw [htx]
  dsimp only
  rw [hp]
  dsimp only
  refine ⟨rfl, ?_⟩
  unfold getBalance
  have hinv : ∀ q : Profile,
      (fun q : Profile => decide (q.id = txn.user_id))
        (if q.id = txn.user_id then
          { q with credits := p.credits - txn.amount } else q) =
      (fun q : Profile => decide (q.id = txn.user_id)) q := by
    intro q
    by_cases hq : q.id = txn.user_id
    · simp [hq]
    · simp [hq]
  rw [single?_map_comm _ _ hinv st.profiles, hp]
  simp [hpid]

/-- Concrete instantiation of the amended C4 theorem at `c4Store`. -/
theorem c4_amended_settle_debits_unconditionally_witness :
    (orderWebhook true ["CREDIT-0"] 301 3001 1 c4Store).1 = .finalized 301 ∧
    getBalance "u" (orderWebhook true ["CREDIT-0"] 301 3001 1 c4Store).2 =
      10 - 25 :=
  c4_amended_settle_debits_unconditionally "CREDIT-0" 301 3001 1 c4Store
    ⟨1, "u", 25, .pending, "CREDIT-0", 1, 0, none, none, none, none⟩
    { id := "u", credits := 10 } (by decide) (by decide) (by decide)

/-- C6 counterexample: the standalone cancel handler of
`src/api/cancel-credits.js` does change the balance — cancelling the
pending 10.00 reservation moves the balance from 0.00 to 10.00. -/
theorem c6_counterexample_standalone_cancel_changes_balance :
    getBalance "u" zeroBalanceStore = 0 ∧
    (cancelCreditsStandalone "u" "CREDIT-0" none 5 zeroBalanceStore).1 =
      .cancelledOk 10 10 ∧
    getBalance "u"
      (cancelCreditsStandalone "u" "CREDIT-0" none 5 zeroBalanceStore).2 = 10 := by
  decide

/-- C6 amended: cancellation through the main server's endpoint and the
sweeper leave every balance read exactly unchanged, but the standalone
cancel handler credits the reservation amount back: it answers success
with `credits + amount` and writes that balance. -/
theorem c6_amended_cancel_balance_effects (uid code : String)
    (pr : Option Nat) (now : ℤ) (st : Store)
    (txn : CreditTransaction) (p : Profile)
    (hu : uid ≠ "") (hc : code ≠ "")
    (htx : single? (fun t =>
        decide (t.user_id = uid ∧ t.discount_code = code ∧ t.status = .pending))
        st.transactions = some txn)
    (hp : single? (fun q => decide (q.id = uid)) st.profiles = some p) :
    (∀ uid' code' pr' now' st',
      getBalance uid' ((cancelCredits uid' code' pr' now' st').2) =
        getBalance uid' st') ∧
    (∀ uid' now' st',
      getBalance uid' ((cleanupPending now' st').2) = getBalance uid' st') ∧
    ((cancelCreditsStandalone uid code pr now st).1 =
        .cancelledOk txn.amount (p.credits + txn.amount) ∧
      getBalance uid (cancelCreditsStandalone uid code pr now st).2 =
        p.credits + txn.amount) := by
  refine ⟨?_, ?_, ?_⟩
  · intro uid' code' pr' now' st'
    unfold getBalance
    rw [cancelCredits_profiles]
  · intro uid' now' st'
    unfold getBalance
    rw [cleanupPending_profiles]
  · have hval : ¬(uid = "" ∨ code = "") := not_or.mpr ⟨hu, hc⟩
    unfold cancelCreditsStandalone
    rw [if_neg hval, htx]
    dsimp only
    rw [hp]
    dsimp only
    refine ⟨by cases pr <;> rfl, ?_⟩
    have hinv : ∀ q : Profile,
        (fun q : Profile => decide (q.id = uid))
          (if q.id = uid then
            { q with credits := p.credits + txn.amount } else q) =
        (fun q : Profile => decide (q.id = uid)) q := by
      intro q
      by_cases hq : q.id = uid
      · simp [hq]
      · simp [hq]
    have hpid : p.id = uid := of_decide_eq_true (mem_of_single? _ _ _ hp).2
    cases pr with
    | none =>
      unfold getBalance
      dsimp only
      rw [single?_map_comm _ _ hinv st.profiles, hp]
      simp [hpid]
    | some prv =>
      unfold getBalance
      dsimp only
      rw [single?_map_comm _ _ hinv st.profiles, hp]
      simp [hpid]

/-- Concrete instantiation of the amended C6 theorem at `zeroBalanceStore`. -/
theorem c6_amended_cancel_balance_effects_witness :
    (cancelCreditsStandalone "u" "CREDIT-0" none 5 zeroBalanceStore).1 =
      .cancelledOk 10 (0 + 10) :=
  ((c6_amended_cancel_balance_effects "u" "CREDIT-0" none 5 zeroBalanceStore
      ⟨1, "u", 10, .pending, "CREDIT-0", 1, 0, none, none, none, none⟩
      { id := "u", credits := 0 }
      (by decide) (by decide) (by decide) (by decide)).2.2).1

/-- C7: calling the main server's cancel endpoint on an existing pending
reservation owned by the caller persists the cancellation but answers the
500 error `Failed to cancel credits` (the success JSON reads the
undeclared variable `restoredBalance`, raising a `ReferenceError`), not
the success result the spec promises. The balance is untouched. -/
theorem c7_cancel_answers_error_despite_cancelling :
    (cancelCredits "u" "CREDIT-0" (some 1) 5 zeroBalanceStore).1 =
      .cancelFailed ∧
    statusOf "CREDIT-0"
      (cancelCredits "u" "CREDIT-0" (some 1) 5 zeroBalanceStore).2 =
      some .cancelled ∧
    getBalance "u" (cancelCredits "u" "CREDIT-0" (some 1) 5 zeroBalanceStore).2 =
      0 := by
  decide

/-- C8 counterexample: with the price-rule creation succeeding and the
discount-code creation failing, apply-credits answers 500 and leaves the
just-created price rule 1 in Shopify with no reservation row — no
rollback deletion happens. -/
theorem c8_counterexample_orphaned_instrument :
    (applyCredits ⟨true, false, true⟩ "u" 25 true 0 c1Store).1 = .applyFailed ∧
    (applyCredits ⟨true, false, true⟩ "u" 25 true 0 c1Store).2.priceRules = [1] ∧
    (applyCredits ⟨true, false, true⟩ "u" 25 true 0 c1Store).2.transactions = [] := by
  decide

/-- C8 amended: after the discount instrument (price rule) is created,
no failure triggers any rollback. If the discount-code creation fails the
handler answers 500 with the instrument still present and no reservation
row; if the reservation insert fails, the error is silently ignored and
the handler even answers success, again with the instrument present and
no reservation row. -/
theorem c8_amended_no_rollback_after_issuance (uid : String)
    (amount now : ℤ) (st : Store) (p : Profile) (insertOk : Bool)
    (hu : uid ≠ "") (hamt : amount ≠ 0)
    (hp : single? (fun q => decide (q.id = uid)) st.profiles = some p)
    (hle : ¬(p.credits < amount)) :
    applyCredits ⟨true, false, insertOk⟩ uid amount true now st =
      (.applyFailed,
       { st with
         priceRules := st.nextPrId :: st.priceRules,
         nextPrId := st.nextPrId + 1,
         nextCodeSeed := st.nextCodeSeed + 1 }) ∧
    applyCredits ⟨true, true, false⟩ uid amount true now st =
      (.applied ("CREDIT-" ++ toString st.nextCodeSeed) amount p.credits
         st.nextPrId,
       { st with
         priceRules := st.nextPrId :: st.priceRules,
         nextPrId := st.nextPrId + 1,
         nextCodeSeed := st.nextCodeSeed + 1 }) := by
  have hval : ¬(amount = 0 ∨ uid = "" ∨ (true : Bool) = false) := by
    push_neg
    exact ⟨hamt, hu, by simp⟩
  constructor
  · unfold applyCredits
    rw [if_neg hval, hp]
    dsimp only
    rw [if_neg hle]
    rfl
  · unfold applyCredits
    rw [if_neg hval, hp]
    dsimp only
    rw [if_neg hle]
    rfl

/-- Concrete instantiation of the amended C8 theorem at `c1Store`. -/
theorem c8_amended_no_rollback_after_issuance_witness :
    applyCredits ⟨true, false, true⟩ "u" 25 true 0 c1Store =
      (.applyFailed,
       { c1Store with priceRules := [1], nextPrId := 2, nextCodeSeed := 1 }) :=
  (c8_amended_no_rollback_after_issuance "u" 25 0 c1Store
    { id := "u", credits := 50 } true
    (by decide) (by decide) (by decide) (by decide)).1

/-- C9: the sweep reports the number of pending reservations older than
24 hours, rewrites exactly the expired pending rows to cancelled (so a
reservation created 25 hours ago is cancelled), and leaves every younger
pending reservation — and every other row — untouched. -/
theorem c9_sweep_cancels_only_expired_pending (now : ℤ) (st : Store) :
    (cleanupPending now st).1 =
      .sweepDone (st.transactions.filter (isExpiredPending now)).length ∧
    (cleanupPending now st).2.transactions =
      st.transactions.map (cancelExpired now) ∧
    (∀ t ∈ st.transactions, t.status = .pending → t.created_at < now - 24 →
      { t with status := .cancelled, cancelled_at := some now } ∈
        (cleanupPending now st).2.transactions) ∧
    (∀ t ∈ st.transactions, t.status = .pending → ¬(t.created_at < now - 24) →
      t ∈ (cleanupPending now st).2.transactions) := by
  have hmain : (cleanupPending now st).1 =
      .sweepDone (st.transactions.filter (isExpiredPending now)).length ∧
      (cleanupPending now st).2.transactions =
        st.transactions.map (cancelExpired now) := by
    unfold cleanupPending
    dsimp only
    split
    · exact ⟨rfl, rfl⟩
    · next h =>
      have hnil : st.transactions.filter (isExpiredPending now) = [] := by
        cases hf : st.transactions.filter (isExpiredPending now) with
        | nil => rfl
        | cons a as => rw [hf] at h; simp at h
      have hnone : ∀ t ∈ st.transactions, ¬(isExpiredPending now t = true) :=
        List.filter_eq_nil_iff.mp hnil
      constructor
      · rw [hnil]
        rfl
      · have : st.transactions.map (cancelExpired now) =
            st.transactions.map id := by
          apply List.map_congr_left
          intro t ht
          unfold cancelExpired
          rw [if_neg (hnone t ht)]
          rfl
        rw [this, List.map_id]
  refine ⟨hmain.1, hmain.2, ?_, ?_⟩
  · intro t ht hpend hold
    rw [hmain.2]
    have hone : cancelExpired now t =
        { t with status := .cancelled, cancelled_at := some now } := by
      unfold cancelExpired
      rw [if_pos]
      unfold isExpiredPending
      exact decide_eq_true ⟨hpend, hold⟩
    rw [← hone]
    exact List.mem_map_of_mem (cancelExpired now) ht
  · intro t ht hpend hyoung
    rw [hmain.2]
    have hone : cancelExpired now t = t := by
      unfold cancelExpired
      rw [if_neg]
      unfold isExpiredPending
      simp only [decide_eq_true_eq]
      intro hcon
      exact hyoung hcon.2
    rw [← hone]
    exact List.mem_map_of_mem (cancelExpired now) ht

/-- Concrete instantiation of C9: the 25-hour-old reservation is
cancelled, the 1-hour-old one is untouched, and the count is 1. -/
theorem c9_sweep_cancels_only_expired_pending_witness :
    (cleanupPending 75 sweepStore).1 = .sweepDone 1 ∧
    (⟨1, "u", 10, .cancelled, "CREDIT-0", 1, 50, none, some 75, none, none⟩ :
        CreditTransaction) ∈ (cleanupPending 75 sweepStore).2.transactions ∧
    (⟨2, "u", 15, .pending, "CREDIT-1", 2, 74, none, none, none, none⟩ :
        CreditTransaction) ∈ (cleanupPending 75 sweepStore).2.transactions := by
  have h := c9_sweep_cancels_only_expired_pending 75 sweepStore
  refine ⟨h.1.trans (by decide), ?_, ?_⟩
  · exact h.2.2.1 ⟨1, "u", 10, .pending, "CREDIT-0", 1, 50, none, none, none, none⟩
      (by decide) (by decide) (by decide)
  · exact h.2.2.2 ⟨2, "u", 15, .pending, "CREDIT-1", 2, 74, none, none, none, none⟩
      (by decide) (by decide) (by decide)

/-- A row fixed by a rewrite stays in the rewritten table. -/
theorem mem_map_self {α : Type} (g : α → α) (l : List α) (a : α)
    (ha : a ∈ l) (hg : g a = a) : a ∈ l.map g := by
  have := List.mem_map_of_mem g ha
  rwa [hg] at this

/-- apply-credits only ever appends to `credit_transactions`: every
existing row survives. -/
theorem applyCredits_mem_transactions (env : IssuerEnv) (uid : String)
    (a now : ℤ) (cart : Bool) (st : Store) (t : CreditTransaction)
    (ht : t ∈ st.transactions) :
    t ∈ (applyCredits env uid a cart now st).2.transactions := by
  unfold applyCredits
  repeat' split
  all_goals first
    | exact ht
    | exact List.mem_append_left _ ht

/-- The settlement webhook only rewrites the row whose id it found with
`status = 'pending'`; under unique ids a non-pending row is untouched. -/
theorem orderWebhook_mem_terminal (hv : Bool) (codes : List String)
    (oid onum : Nat) (now : ℤ) (st : Store) (t : CreditTransaction)
    (hnod : (st.transactions.map (fun u => u.id)).Nodup)
    (ht : t ∈ st.transactions) (hterm : t.status ≠ .pending) :
    t ∈ (orderWebhook hv codes oid onum now st).2.transactions := by
  unfold orderWebhook
  split
  · exact ht
  · split
    · exact ht
    · next code hfind =>
      cases htx : single? (fun u =>
          decide (u.discount_code = code ∧ u.status = .pending))
          st.transactions with
      | none => exact ht
      | some txn =>
        dsimp only
        have hmemtx := mem_of_single? _ _ _ htx
        have hptx : txn.status = .pending := by
          have h2 := hmemtx.2
          simp only [decide_eq_true_eq] at h2
          exact h2.2
        have hne : t.id ≠ txn.id := by
          intro heq
          exact hterm (by
            rw [List.inj_on_of_nodup_map hnod ht hmemtx.1 heq]
            exact hptx)
        have hg : (fun u : CreditTransaction =>
            if u.id = txn.id then
              { u with status := TxStatus.completed, completed_at := some now,
                       order_id := some oid, order_number := some onum }
            else u) t = t := if_neg hne
        split
        · exact mem_map_self _ _ _ ht hg
        · exact mem_map_self _ _ _ ht hg

/-- The main server's cancel endpoint only rewrites the row whose id it
found with `status = 'pending'`; under unique ids a non-pending row is
untouched. -/
theorem cancelCredits_mem_terminal (uid code : String) (pr : Option Nat)
    (now : ℤ) (st : Store) (t : CreditTransaction)
    (hnod : (st.transactions.map (fun u => u.id)).Nodup)
    (ht : t ∈ st.transactions) (hterm : t.status ≠ .pending) :
    t ∈ (cancelCredits uid code pr now st).2.transactions := by
  unfold cancelCredits
  split
  · exact ht
  · cases htx : single? (fun u =>
        decide (u.user_id = uid ∧ u.discount_code = code ∧
          u.status = .pending)) st.transactions with
    | none => exact ht
    | some txn =>
      dsimp only
      have hmemtx := mem_of_single? _ _ _ htx
      have hptx : txn.status = .pending := by
        have h2 := hmemtx.2
        simp only [decide_eq_true_eq] at h2
        exact h2.2.2
      have hne : t.id ≠ txn.id := by
        intro heq
        exact hterm (by
          rw [List.inj_on_of_nodup_map hnod ht hmemtx.1 heq]
          exact hptx)
      have hg : (fun u : CreditTransaction =>
          if u.id = txn.id then
            { u with status := TxStatus.cancelled, cancelled_at := some now }
          else u) t = t := if_neg hne
      split
      · exact mem_map_self _ _ _ ht hg
      · exact mem_map_self _ _ _ ht hg

/-- The sweep only rewrites rows with `status = 'pending'`; every other
row is untouched. -/
theorem cleanupPending_mem_terminal (now : ℤ) (st : Store)
    (t : CreditTransaction) (ht : t ∈ st.transactions)
    (hterm : t.status ≠ .pending) :
    t ∈ (cleanupPending now st).2.transactions := by
  have hfalse : isExpiredPending now t = false := by
    unfold isExpiredPending
    simp only [decide_eq_false_iff_not]
    rintro ⟨h1, h2⟩
    exact hterm h1
  unfold cleanupPending
  dsimp only
  split
  · exact mem_map_self _ _ _ ht (if_neg (by simp [hfalse]))
  · exact ht

/-- C2: a reservation that reached a terminal state (completed or
cancelled) is never changed again by any operation — reserve, settle,
cancel or sweep — and repeating the terminal operation is an idempotent
no-op: the settlement webhook for its code answers the already-processed
acknowledgment with the state untouched, and the cancel endpoint answers
not-found with the state untouched. (Unique row ids, as generated by the
schema's primary key, are assumed; the pending lookups exclude terminal
rows, so only pending rows are ever rewritten.) -/
theorem c2_terminal_reservations_are_frozen (now : ℤ) (st : Store)
    (t : CreditTransaction)
    (hnod : (st.transactions.map (fun u => u.id)).Nodup)
    (hmem : t ∈ st.transactions) (hterm : t.status ≠ .pending)
    (hnp : ∀ u ∈ st.transactions, u.discount_code = t.discount_code →
      u.status ≠ .pending) :
    (∀ op, t ∈ (step now op st).transactions) ∧
    (∀ oid onum, strStartsWith t.discount_code "CREDIT-" = true →
      orderWebhook true [t.discount_code] oid onum now st =
        (.alreadyProcessed, st)) ∧
    (∀ pr, t.user_id ≠ "" → t.discount_code ≠ "" →
      cancelCredits t.user_id t.discount_code pr now st =
        (.txNotFound, st)) := by
  refine ⟨?_, ?_, ?_⟩
  · intro op
    cases op with
    | reserve env uid a cart =>
      exact applyCredits_mem_transactions env uid a now cart st t hmem
    | settle hv codes oid onum =>
      exact orderWebhook_mem_terminal hv codes oid onum now st t hnod hmem hterm
    | cancel uid code pr =>
      exact cancelCredits_mem_terminal uid code pr now st t hnod hmem hterm
    | sweep =>
      exact cleanupPending_mem_terminal now st t hmem hterm
  · intro oid onum hcode
    have hfind : List.find? (fun c => strStartsWith c "CREDIT-")
        [t.discount_code] = some t.discount_code :=
      List.find?_cons_of_pos [] hcode
    have hfil : st.transactions.filter (fun u =>
        decide (u.discount_code = t.discount_code ∧ u.status = .pending)) = [] := by
      apply List.filter_eq_nil_iff.mpr
      intro u hu
      simp only [decide_eq_true_eq]
      rintro ⟨hc, hpend⟩
      exact hnp u hu hc hpend
    have hnone : single? (fun u =>
        decide (u.discount_code = t.discount_code ∧ u.status = .pending))
        st.transactions = none := by
      unfold single?
      rw [hfil]
    unfold orderWebhook
    rw [if_neg (by simp), hfind]
    dsimp only
    rw [hnone]
  · intro pr hu hc
    have hval : ¬(t.user_id = "" ∨ t.discount_code = "") := not_or.mpr ⟨hu, hc⟩
    have hfil : st.transactions.filter (fun u =>
        decide (u.user_id = t.user_id ∧ u.discount_code = t.discount_code ∧
          u.status = .pending)) = [] := by
      apply List.filter_eq_nil_iff.mpr
      intro u hu'
      simp only [decide_eq_true_eq]
      rintro ⟨huser, hcode', hpend⟩
      exact hnp u hu' hcode' hpend
    have hnone : single? (fun u =>
        decide (u.user_id = t.user_id ∧ u.discount_code = t.discount_code ∧
          u.status = .pending)) st.transactions = none := by
      unfold single?
      rw [hfil]
    unfold cancelCredits
    rw [if_neg hval, hnone]

/-- Concrete instantiation of C2 at `completedStore`. -/
theorem c2_terminal_reservations_are_frozen_witness :
    orderWebhook true ["CREDIT-0"] 102 1002 3 completedStore =
      (.alreadyProcessed, completedStore) ∧
    cancelCredits "u" "CREDIT-0" none 3 completedStore =
      (.txNotFound, completedStore) ∧
    (⟨1, "u", 25, .completed, "CREDIT-0", 1, 0,
      some 1, none, some 101, some 1001⟩ : CreditTransaction) ∈
      (step 3 .sweep completedStore).transactions := by
  have h := c2_terminal_reservations_are_frozen 3 completedStore
    ⟨1, "u", 25, .completed, "CREDIT-0", 1, 0, some 1, none, some 101, some 1001⟩
    (by decide) (by decide) (by decide) (by decide)
  exact ⟨h.2.1 102 1002 (by decide), h.2.2 none (by decide) (by decide),
    h.1 .sweep⟩

